import Mathlib

/-!
Verification of the document-analyzer orchestration core
(`pages/api/process-document.ts`): the Next.js API handler that stages an
uploaded file, launches the external Python analyzer as a child process,
incrementally parses its stdout for marker-delimited fields, gates the
outcome on the exit code, and returns a JSON response.

The embedding mirrors the TypeScript source. JavaScript string operations
are modelled by executable functions on the character lists underlying
`String`:

* `a.split(b)` with a non-empty string separator is `jsSplit a b`:
  non-overlapping matches, scanned left to right, resuming after each
  match — exactly the JS semantics for string separators.
* `a.includes(b)` (only used with fixed non-empty markers) is
  `jsIncludes a b`: at least two pieces result from the split.
* `arr[0]` / `arr[1]` on a split result are `List.headD` / `List.getD 1`;
  the source only reads them under an `includes` guard, so the index is
  always populated.
* `.trim()` is `jsTrim`, removing the ASCII whitespace characters JS
  trims (the streams at issue are ASCII).
-/

/-- Strip a leading segment: `stripSeg sep l` is the remainder of `l` after
removing `sep` from its front, or `none` when `sep` is not a leading
segment of `l`. -/
def stripSeg : List Char → List Char → Option (List Char)
  | [], l => some l
  | _ :: _, [] => none
  | c :: sep, d :: l => if c = d then stripSeg sep l else none

/-- Fuel-indexed worker for `jsSplit`, structurally recursive so it
evaluates inside the kernel. The fuel is the length of the input, which
suffices because each recursive call is on a strictly shorter list when
the separator is non-empty. -/
def jsSplitAux (sep : List Char) : Nat → List Char → List (List Char)
  | _, [] => [[]]
  | 0, l => [l]
  | fuel + 1, c :: rest =>
    match stripSeg sep (c :: rest) with
    | some remainder => [] :: jsSplitAux sep fuel remainder
    | none =>
      match jsSplitAux sep fuel rest with
      | [] => [[c]]
      | piece :: pieces => (c :: piece) :: pieces

/-- JavaScript `s.split(m)` for a non-empty string separator `m`. -/
def jsSplit (s m : String) : List String :=
  (jsSplitAux m.data s.data.length s.data).map String.mk

/-- JavaScript `s.includes(m)` for a non-empty needle `m`: `m` occurs in
`s` iff splitting on `m` produces more than one piece. -/
def jsIncludes (s m : String) : Bool :=
  decide (2 ≤ (jsSplit s m).length)

/-- The ASCII whitespace characters removed by JavaScript `trim()`
(tab, LF, VT, FF, CR, space). -/
def jsWhitespace (c : Char) : Bool :=
  c = ' ' || c = '\t' || c = '\n' || c = '\x0b' || c = '\x0c' || c = '\r'

/-- JavaScript `s.trim()`: removes leading and trailing whitespace. -/
def jsTrim (s : String) : String :=
  String.mk (((s.data.dropWhile jsWhitespace).reverse.dropWhile jsWhitespace).reverse)

/-- Marker introducing the extracted-information field in analyzer stdout. -/
def infoMarker : String := "Extracted information:"

/-- Marker introducing the generated-filename candidate in analyzer stdout. -/
def genMarker : String := "Generated new filename:"

/-- Marker introducing the authoritative post-rename filename in analyzer stdout. -/
def renameMarker : String := "File renamed successfully to:"

/-- The in-memory parse state of `runPythonScript`: the mutable local
variables `extractedInfo` and `newFilename` (both initialised to `''`). -/
structure ParseState where
  extractedInfo : String
  newFilename : String
deriving DecidableEq, Repr

/-- Initial parse state: both locals start as the empty string. -/
def initState : ParseState := ⟨"", ""⟩

/-- One firing of the `stdout.on('data')` listener in `runPythonScript`
(source lines 110–125).  `output` is the newest chunk only — the source
never accumulates stdout into a buffer — and the three marker checks run
in order against that chunk alone:

* `if (output.includes('Extracted information:'))` →
  `extractedInfo = output.split('Extracted information:')[1]
     .split('Generated new filename:')[0].trim()`
* `if (output.includes('Generated new filename:'))` →
  `newFilename = output.split('Generated new filename:')[1]
     .split('File renamed successfully to:')[0].trim()`
* `if (output.includes('File renamed successfully to:'))` →
  `newFilename = output.split('File renamed successfully to:')[1].trim()`
-/
def processChunk (st : ParseState) (output : String) : ParseState :=
  let st1 :=
    if jsIncludes output infoMarker then
      { st with
          extractedInfo := jsTrim ((jsSplit ((jsSplit output infoMarker).getD 1 "") genMarker).headD "") }
    else st
  let st2 :=
    if jsIncludes output genMarker then
      { st1 with
          newFilename := jsTrim ((jsSplit ((jsSplit output genMarker).getD 1 "") renameMarker).headD "") }
    else st1
  if jsIncludes output renameMarker then
    { st2 with newFilename := jsTrim ((jsSplit output renameMarker).getD 1 "") }
  else st2

/-- The stdout listener of the second (related) version of the file
(source lines 254–281).  It differs from `processChunk` only in guarding
`parts[1]` for truthiness (non-empty string) and in branching on whether
the rename marker occurs inside `parts[1]`; the final rename-marker check
is identical. -/
def processChunkV2 (st : ParseState) (output : String) : ParseState :=
  let st1 :=
    if jsIncludes output infoMarker then
      let p1 := (jsSplit output infoMarker).getD 1 ""
      if p1 ≠ "" then
        { st with
            extractedInfo := jsTrim ((jsSplit p1 genMarker).headD "") }
      else st
    else st
  let st2 :=
    if jsIncludes output genMarker then
      let p1 := (jsSplit output genMarker).getD 1 ""
      if p1 ≠ "" then
        if jsIncludes p1 renameMarker then
          { st1 with
              newFilename := jsTrim ((jsSplit p1 renameMarker).getD 1 "") }
        else
          { st1 with
              newFilename := jsTrim ((jsSplit p1 renameMarker).headD "") }
      else st1
    else st1
  if jsIncludes output renameMarker then
    { st2 with newFilename := jsTrim ((jsSplit output renameMarker).getD 1 "") }
  else st2

/-- The parse state after the stdout listener has fired once per delivered
chunk, in order. -/
def parseStdout (chunks : List String) : ParseState :=
  chunks.foldl processChunk initState

/-- Same, for the second version's listener. -/
def parseStdoutV2 (chunks : List String) : ParseState :=
  chunks.foldl processChunkV2 initState

/-- The structured result the promise resolves with (`PythonScriptResult`). -/
structure PythonScriptResult where
  extractedInfo : String
  newFilename : String
deriving DecidableEq, Repr

/-- One complete behavior of the spawned analyzer process, as observed by
`runPythonScript`: the stdout chunks delivered to the data listener, the
stderr chunks, and the exit code reported at the `close` event. -/
structure AnalyzerRun where
  stdoutChunks : List String
  stderrChunks : List String
  exitCode : Int
deriving DecidableEq, Repr

/-- How the promise returned by `runPythonScript` settles: rejected with
an error message, or resolved with a `PythonScriptResult`. -/
inductive ScriptOutcome where
  | rejected (message : String)
  | resolved (result : PythonScriptResult)
deriving DecidableEq, Repr

/-- The settled value of the promise returned by `runPythonScript`
(source lines 106–140): stdout chunks are parsed one at a time by
`processChunk`, stderr chunks are concatenated verbatim into `stdErr`,
and at `close` a nonzero exit code rejects with
`` `Python script exited with code ${code}: ${stdErr}` `` while exit code
`0` resolves with whatever was parsed. -/
def runPythonScript (run : AnalyzerRun) : ScriptOutcome :=
  let st := parseStdout run.stdoutChunks
  let stdErr := String.join run.stderrChunks
  if run.exitCode ≠ 0 then
    .rejected ("Python script exited with code " ++ toString run.exitCode ++ ": " ++ stdErr)
  else
    .resolved { extractedInfo := st.extractedInfo, newFilename := st.newFilename }

/-- The staged upload as formidable reports it; only its `filepath` is read
by the handler. -/
structure UploadedFile where
  filepath : String
deriving DecidableEq, Repr

/-- A formidable field/file value: a single value or a multi-value list
(a client may send the same part several times).  The handler collapses it
with `Array.isArray(x) ? x[0] : x`. -/
inductive FormVal (α : Type) where
  | single : α → FormVal α
  | multi : List α → FormVal α
deriving DecidableEq, Repr

/-- JavaScript `Array.isArray(x) ? x[0] : x`; `none` models the `undefined`
obtained from `[0]` on an empty list. -/
def FormVal.firstVal {α : Type} : FormVal α → Option α
  | .single a => some a
  | .multi l => l.head?

/-- Result of `form.parse`: either the promise rejects (the thrown error's
message) or it resolves with the optional `files.file` and
`fields.namingConvention` values. -/
inductive FormParse where
  | failed (errMessage : String)
  | parsed (file : Option (FormVal UploadedFile))
      (namingConvention : Option (FormVal String))
deriving DecidableEq, Repr

/-- The JSON (or empty) body of the handler's response.  `success` is
`none` when the body carries no `success` field (the 405 branch), and the
two result fields are `none` when absent from the object. -/
inductive ResponseBody where
  | empty
  | json (success : Option Bool) (message : Option String)
      (extractedInfo : Option String) (newFilename : Option String)
deriving DecidableEq, Repr

/-- Observable outcome of one handler invocation: the response sent plus
the side effects relevant to the specification — whether the multipart
body was parsed (staging), whether a file was staged on disk, whether the
analyzer subprocess was spawned, whether `fs.unlinkSync` was attempted,
and whether a cleanup failure was logged. -/
structure HandlerTrace where
  status : Nat
  headers : List (String × String)
  body : ResponseBody
  bodyParsed : Bool
  staged : Bool
  launched : Bool
  unlinkCalled : Bool
  cleanupErrorLogged : Bool
deriving DecidableEq, Repr

/-- Headers set by the OPTIONS branch (source lines 21–24). -/
def corsHeaders : List (String × String) :=
  [("Allow", "POST, OPTIONS"),
   ("Access-Control-Allow-Origin", "*"),
   ("Access-Control-Allow-Methods", "POST, OPTIONS"),
   ("Access-Control-Allow-Headers", "Content-Type, Authorization")]

/-- Stands for the runtime `TypeError` message raised when an empty
multi-value list is collapsed (`[0]` is `undefined`, so reading
`.filepath`, or handing `undefined` to `spawn`, throws); the enclosing
`try/catch` turns it into the 500 response.  The exact engine-dependent
message text is abstracted by this constant; no claim depends on it. -/
def emptyListRuntimeError : String := "TypeError"

/-- The API handler (source lines 15–91), as a function from the request
method, the outcome of the multipart parse, the behavior of the analyzer
process (used only if a subprocess is actually spawned), and whether
`fs.unlinkSync` throws, to the observable trace:

* `OPTIONS` → 200, CORS headers, empty body, nothing else happens.
* any method other than `POST` → 405 `{ message: 'Method not allowed' }`.
* `POST`: the form is parsed; a parse error propagates to the catch
  block (500 `Server error: …`).  Missing `file` or `namingConvention` →
  400 with `success: false`.  Otherwise the Python script runs; a
  rejection propagates to the catch block (500) — note the staged file is
  unlinked only after a successful run, on the 200 path, where an unlink
  error is caught, logged, and ignored. -/
def handler (method : String) (parse : FormParse) (run : AnalyzerRun)
    (unlinkFails : Bool) : HandlerTrace :=
  if method = "OPTIONS" then
    { status := 200, headers := corsHeaders, body := .empty,
      bodyParsed := false, staged := false, launched := false,
      unlinkCalled := false, cleanupErrorLogged := false }
  else if method ≠ "POST" then
    { status := 405, headers := [],
      body := .json none (some "Method not allowed") none none,
      bodyParsed := false, staged := false, launched := false,
      unlinkCalled := false, cleanupErrorLogged := false }
  else
    match parse with
    | .failed msg =>
      { status := 500, headers := [],
        body := .json (some false) (some ("Server error: " ++ msg)) none none,
        bodyParsed := true, staged := false, launched := false,
        unlinkCalled := false, cleanupErrorLogged := false }
    | .parsed file namingConvention =>
      let staged := file.isSome
      match file, namingConvention with
      | some fileVal, some ncVal =>
        match fileVal.firstVal, ncVal.firstVal with
        | some _uploadedFile, some _ncStr =>
          match runPythonScript run with
          | .rejected msg =>
            { status := 500, headers := [],
              body := .json (some false) (some ("Server error: " ++ msg)) none none,
              bodyParsed := true, staged := staged, launched := true,
              unlinkCalled := false, cleanupErrorLogged := false }
          | .resolved result =>
            { status := 200, headers := [],
              body := .json (some true) (some "Document processed successfully")
                (some result.extractedInfo) (some result.newFilename),
              bodyParsed := true, staged := staged, launched := true,
              unlinkCalled := true, cleanupErrorLogged := unlinkFails }
        | _, _ =>
          { status := 500, headers := [],
            body := .json (some false)
              (some ("Server error: " ++ emptyListRuntimeError)) none none,
            bodyParsed := true, staged := staged, launched := false,
            unlinkCalled := false, cleanupErrorLogged := false }
      | _, _ =>
        { status := 400, headers := [],
          body := .json (some false) (some "File and naming convention are required") none none,
          bodyParsed := true, staged := staged, launched := false,
          unlinkCalled := false, cleanupErrorLogged := false }

/-- One `spawn` invocation: the command, its argument vector, and whether
a shell was requested (the source passes no options object, so `shell`
defaults to `false` and no shell ever interprets the arguments). -/
structure SpawnCall where
  command : String
  args : List String
  shellRequested : Bool
deriving DecidableEq, Repr

/-- Location of the analyzer script:
`path.join(process.cwd(), 'scripts', 'document_analyzer.py')`. -/
def scriptPath (cwd : String) : String :=
  cwd ++ "/scripts/document_analyzer.py"

/-- Location of the second version's interpreter:
`path.join(process.cwd(), 'scripts', 'venv', 'bin', 'python')`. -/
def venvPython (cwd : String) : String :=
  cwd ++ "/scripts/venv/bin/python"

/-- The spawn performed by `runPythonScript` (source line 104):
`spawn('python', [scriptPath, filePath, namingConvention])`. -/
def analyzerSpawn (cwd filePath namingConvention : String) : SpawnCall :=
  { command := "python",
    args := [scriptPath cwd, filePath, namingConvention],
    shellRequested := false }

/-- The spawn performed by the second version (source line 247):
`spawn(pythonInterpreter, [scriptPath, filePath, namingConvention])`. -/
def analyzerSpawnV2 (cwd filePath namingConvention : String) : SpawnCall :=
  { command := venvPython cwd,
    args := [scriptPath cwd, filePath, namingConvention],
    shellRequested := false }

/-- Modelled from the spec (§4.4), for comparison with the source parser:
the specification requires re-evaluating the marker rules on every new
chunk against the entire accumulated buffer, not just the newest
fragment.  One step appends the chunk to the buffer and applies the
marker rules to the whole buffer. -/
def specAccumStep (acc : String × ParseState) (chunk : String) : String × ParseState :=
  let buffer := acc.1 ++ chunk
  (buffer, processChunk acc.2 buffer)

/-- Modelled from the spec (§4.4): the parse state obtained by re-scanning
the full accumulated buffer on every chunk. -/
def specAccumParse (chunks : List String) : ParseState :=
  (chunks.foldl specAccumStep ("", initState)).2

/-- A chunk containing none of the three markers leaves the parse state
untouched. -/
theorem processChunk_no_marker (st : ParseState) (c : String)
    (h1 : jsIncludes c infoMarker = false)
    (h2 : jsIncludes c genMarker = false)
    (h3 : jsIncludes c renameMarker = false) :
    processChunk st c = st := by
  simp [processChunk, h1, h2, h3]

/-- Folding the stdout listener over marker-free chunks leaves any parse
state untouched. -/
theorem foldl_processChunk_no_marker (chunks : List String) (st : ParseState)
    (h : ∀ c ∈ chunks, jsIncludes c infoMarker = false ∧
      jsIncludes c genMarker = false ∧ jsIncludes c renameMarker = false) :
    chunks.foldl processChunk st = st := by
  induction chunks generalizing st with
  | nil => rfl
  | cons c cs ih =>
    have hc := h c (List.mem_cons_self c cs)
    rw [List.foldl_cons, processChunk_no_marker st c hc.1 hc.2.1 hc.2.2]
    exact ih st fun d hd => h d (List.mem_cons_of_mem c hd)

/-- When a chunk contains the rename marker, the listener sets
`newFilename` to the trimmed text after that marker, regardless of the
previous state. -/
theorem processChunk_rename_wins (st : ParseState) (c : String)
    (h : jsIncludes c renameMarker = true) :
    (processChunk st c).newFilename = jsTrim ((jsSplit c renameMarker).getD 1 "") := by
  simp [processChunk, h]

/-- When a chunk contains the generated-filename marker but not the rename
marker, the listener sets `newFilename` to the trimmed text after the
generated-filename marker, regardless of the previous state. -/
theorem processChunk_gen_sets (st : ParseState) (c : String)
    (hg : jsIncludes c genMarker = true) (hr : jsIncludes c renameMarker = false) :
    (processChunk st c).newFilename
      = jsTrim ((jsSplit ((jsSplit c genMarker).getD 1 "") renameMarker).headD "") := by
  simp [processChunk, hg, hr]

/-- A chunk containing the generated-filename marker determines
`newFilename` by itself: the value after processing it does not depend on
the state accumulated from earlier chunks. -/
theorem processChunk_newFilename_overwrite (st st' : ParseState) (c : String)
    (hg : jsIncludes c genMarker = true) :
    (processChunk st c).newFilename = (processChunk st' c).newFilename := by
  by_cases hr : jsIncludes c renameMarker = true
  · rw [processChunk_rename_wins st c hr, processChunk_rename_wins st' c hr]
  · have hr' : jsIncludes c renameMarker = false := by
      cases hv : jsIncludes c renameMarker
      · rfl
      · exact absurd hv hr
    rw [processChunk_gen_sets st c hg hr', processChunk_gen_sets st' c hg hr']

/-- Claim C1: the spec states that a marker split across two chunks at an
arbitrary byte boundary (first chunk ending `"Extracted inf"`, next chunk
beginning `"ormation: X"`) still yields `extractedInfo = "X"`, because
each new chunk is re-parsed against the entire accumulated buffer.  The
code does not do this: both versions of the stdout listener parse only the
newest fragment, so neither chunk contains the full marker and
`extractedInfo` stays empty — while the accumulated-buffer parser the spec
describes would indeed produce `"X"`. -/
theorem split_marker_lost_across_chunks :
    (parseStdout ["Extracted inf", "ormation: X"]).extractedInfo = "" ∧
    (parseStdoutV2 ["Extracted inf", "ormation: X"]).extractedInfo = "" ∧
    (specAccumParse ["Extracted inf", "ormation: X"]).extractedInfo = "X" := by
  decide

/-- Claim C2: the spec states that the staged temporary file is deleted
before the final outcome on every path, so after any outcome it no longer
exists on disk.  The code unlinks only on the success path: when the
analyzer exits nonzero, the rejection propagates to the catch block and
the 500 response is returned with the staged file still on disk —
`fs.unlinkSync` is never reached. -/
theorem staged_file_left_behind_on_analyzer_failure :
    (handler "POST"
      (.parsed (some (.single ⟨"/tmp/document-analyzer/upload_1.pdf"⟩))
        (some (.single "YYYY-MM-DD_Client")))
      ⟨["Extracted information: Invoice #123\n"], ["Traceback: boom\n"], 1⟩
      false).status = 500 ∧
    (handler "POST"
      (.parsed (some (.single ⟨"/tmp/document-analyzer/upload_1.pdf"⟩))
        (some (.single "YYYY-MM-DD_Client")))
      ⟨["Extracted information: Invoice #123\n"], ["Traceback: boom\n"], 1⟩
      false).staged = true ∧
    (handler "POST"
      (.parsed (some (.single ⟨"/tmp/document-analyzer/upload_1.pdf"⟩))
        (some (.single "YYYY-MM-DD_Client")))
      ⟨["Extracted information: Invoice #123\n"], ["Traceback: boom\n"], 1⟩
      false).unlinkCalled = false := by
  decide

/-- Claim C3: on the two-chunk stream `"...Extracted information: Invoice
#123"` then `" Generated new filename: 2024-01-01_Acme.pdf File renamed
successfully to: 2024-01-01_Acme_FINAL.pdf"`, the parser produces
`extractedInfo = "Invoice #123"` and `newFilename =
"2024-01-01_Acme_FINAL.pdf"`; in general, the trimmed text after the
rename marker overrides any previously captured `newFilename`. -/
theorem rename_marker_overrides_generated_filename :
    parseStdout ["...Extracted information: Invoice #123",
      " Generated new filename: 2024-01-01_Acme.pdf File renamed successfully to: 2024-01-01_Acme_FINAL.pdf"]
      = ⟨"Invoice #123", "2024-01-01_Acme_FINAL.pdf"⟩ ∧
    ∀ st chunk, jsIncludes chunk renameMarker = true →
      (processChunk st chunk).newFilename = jsTrim ((jsSplit chunk renameMarker).getD 1 "") :=
  ⟨by decide, fun st chunk h => processChunk_rename_wins st chunk h⟩

/-- Claim C3 witness: the override part applied to a chunk carrying the
rename marker over a previously captured candidate. -/
theorem rename_marker_overrides_generated_filename_witness :
    (processChunk ⟨"Invoice #123", "prev.pdf"⟩ "File renamed successfully to: z.pdf").newFilename
      = jsTrim ((jsSplit "File renamed successfully to: z.pdf" renameMarker).getD 1 "") :=
  rename_marker_overrides_generated_filename.2 ⟨"Invoice #123", "prev.pdf"⟩
    "File renamed successfully to: z.pdf" (by decide)

/-- Claim C4: a run terminating with a nonzero exit code is rejected —
whatever markers stdout contained — with a message combining the exit code
and the full accumulated stderr text; the promise resolves successfully
exactly when the exit code is 0. -/
theorem nonzero_exit_is_failure :
    (∀ run : AnalyzerRun, run.exitCode ≠ 0 →
      runPythonScript run = .rejected
        ("Python script exited with code " ++ toString run.exitCode ++ ": "
          ++ String.join run.stderrChunks)) ∧
    (∀ run : AnalyzerRun, (∃ r, runPythonScript run = .resolved r) ↔ run.exitCode = 0) := by
  constructor
  · intro run h
    simp [runPythonScript, h]
  · intro run
    by_cases h : run.exitCode = 0 <;> simp [runPythonScript, h]

/-- Claim C4 witness: a run that writes valid markers to stdout but exits
with code 1 is rejected with the combined exit-code/stderr message. -/
theorem nonzero_exit_is_failure_witness :
    runPythonScript
      ⟨["Extracted information: Invoice #123\nGenerated new filename: ok.pdf\n"],
        ["boom\n"], 1⟩
      = .rejected ("Python script exited with code " ++ toString (1 : Int) ++ ": "
          ++ String.join ["boom\n"]) :=
  nonzero_exit_is_failure.1
    ⟨["Extracted information: Invoice #123\nGenerated new filename: ok.pdf\n"],
      ["boom\n"], 1⟩ (by decide)

/-- Claim C5 counterexample: the claim states the validation message is
`"file and naming convention are required"`, but on a request missing the
naming convention the handler responds 400 with the capitalized message
`"File and naming convention are required"`, not the lowercase one. -/
theorem validation_message_is_capitalized :
    (handler "POST"
      (.parsed (some (.single ⟨"/tmp/document-analyzer/upload_2.pdf"⟩)) none)
      ⟨[], [], 0⟩ false).body
      = .json (some false) (some "File and naming convention are required") none none ∧
    (handler "POST"
      (.parsed (some (.single ⟨"/tmp/document-analyzer/upload_2.pdf"⟩)) none)
      ⟨[], [], 0⟩ false).body
      ≠ .json (some false) (some "file and naming convention are required") none none := by
  decide

/-- Claim C5 (amended): for every request missing the file part or the
naming-convention field, the handler responds with client-error status 400
and message `"File and naming convention are required"` (capital `F`), and
no subprocess is launched. -/
theorem missing_field_yields_validation_failure
    (file : Option (FormVal UploadedFile)) (nc : Option (FormVal String))
    (run : AnalyzerRun) (uf : Bool) (h : file = none ∨ nc = none) :
    handler "POST" (.parsed file nc) run uf
      = { status := 400, headers := [],
          body := .json (some false) (some "File and naming convention are required") none none,
          bodyParsed := true, staged := file.isSome, launched := false,
          unlinkCalled := false, cleanupErrorLogged := false } := by
  rcases h with h | h
  · subst h
    cases nc <;> rfl
  · subst h
    cases file <;> rfl

/-- Claim C5 witness: a request carrying a file but no naming convention
gets the 400 validation response and launches nothing. -/
theorem missing_field_yields_validation_failure_witness :
    handler "POST"
      (.parsed (some (.single ⟨"/tmp/document-analyzer/upload_3.pdf"⟩)) none)
      ⟨["Extracted information: Y\n"], [], 0⟩ true
      = { status := 400, headers := [],
          body := .json (some false) (some "File and naming convention are required") none none,
          bodyParsed := true, staged := true, launched := false,
          unlinkCalled := false, cleanupErrorLogged := false } :=
  missing_field_yields_validation_failure
    (some (.single ⟨"/tmp/document-analyzer/upload_3.pdf"⟩)) none
    ⟨["Extracted information: Y\n"], [], 0⟩ true (Or.inr rfl)

/-- Claim C6: a run that exits with code 0 and whose stdout chunks never
contain any recognized marker resolves successfully with `extractedInfo`
and `newFilename` both the empty string — the absence of markers is not an
error. -/
theorem no_marker_zero_exit_is_empty_success (run : AnalyzerRun)
    (hcode : run.exitCode = 0)
    (hnm : ∀ c ∈ run.stdoutChunks, jsIncludes c infoMarker = false ∧
      jsIncludes c genMarker = false ∧ jsIncludes c renameMarker = false) :
    runPythonScript run = .resolved ⟨"", ""⟩ := by
  have hp : parseStdout run.stdoutChunks = initState :=
    foldl_processChunk_no_marker run.stdoutChunks initState hnm
  simp [runPythonScript, hcode, hp, initState]

/-- Claim C6 witness: a marker-free stdout stream with exit code 0
resolves to the empty-field success result. -/
theorem no_marker_zero_exit_is_empty_success_witness :
    runPythonScript ⟨["Analyzing document...\n", "done.\n"], [], 0⟩ = .resolved ⟨"", ""⟩ :=
  no_marker_zero_exit_is_empty_success ⟨["Analyzing document...\n", "done.\n"], [], 0⟩
    rfl (by decide)

/-- Claim C7: for every working directory, staged file path, and
naming-convention string — shell metacharacters included — both versions
spawn the analyzer with `filePath` and `namingConvention` as exactly the
two discrete argument tokens following the script path, in that order,
and with no shell requested to interpret them. -/
theorem spawn_passes_discrete_argument_tokens
    (cwd filePath namingConvention : String) :
    (analyzerSpawn cwd filePath namingConvention).args
        = [scriptPath cwd, filePath, namingConvention] ∧
    (analyzerSpawn cwd filePath namingConvention).args.drop 1
        = [filePath, namingConvention] ∧
    (analyzerSpawn cwd filePath namingConvention).shellRequested = false ∧
    (analyzerSpawnV2 cwd filePath namingConvention).args
        = [scriptPath cwd, filePath, namingConvention] ∧
    (analyzerSpawnV2 cwd filePath namingConvention).args.drop 1
        = [filePath, namingConvention] ∧
    (analyzerSpawnV2 cwd filePath namingConvention).shellRequested = false :=
  ⟨rfl, rfl, rfl, rfl, rfl, rfl⟩

/-- Claim C8: an OPTIONS pre-flight request is answered with an empty 200
response whose headers advertise the accepted methods, and no body parse,
staging, subprocess launch, or cleanup happens for it. -/
theorem preflight_empty_success_with_allowed_methods
    (parse : FormParse) (run : AnalyzerRun) (uf : Bool) :
    handler "OPTIONS" parse run uf
      = { status := 200, headers := corsHeaders, body := .empty,
          bodyParsed := false, staged := false, launched := false,
          unlinkCalled := false, cleanupErrorLogged := false } ∧
    ("Allow", "POST, OPTIONS") ∈ corsHeaders ∧
    ("Access-Control-Allow-Methods", "POST, OPTIONS") ∈ corsHeaders :=
  ⟨rfl, by decide, by decide⟩

/-- Claim C9: a request whose method is neither POST nor OPTIONS gets a
405 response whose body is `{ message: 'Method not allowed' }` with no
`success` field, and the handler neither parses the body, stages a file,
nor launches a subprocess. -/
theorem non_post_method_rejected (method : String) (parse : FormParse)
    (run : AnalyzerRun) (uf : Bool)
    (h1 : method ≠ "POST") (h2 : method ≠ "OPTIONS") :
    handler method parse run uf
      = { status := 405, headers := [],
          body := .json none (some "Method not allowed") none none,
          bodyParsed := false, staged := false, launched := false,
          unlinkCalled := false, cleanupErrorLogged := false } := by
  simp [handler, h1, h2]

/-- Claim C9 witness: a GET request is answered 405 with no side effects. -/
theorem non_post_method_rejected_witness :
    handler "GET" (.parsed none none) ⟨[], [], 0⟩ false
      = { status := 405, headers := [],
          body := .json none (some "Method not allowed") none none,
          bodyParsed := false, staged := false, launched := false,
          unlinkCalled := false, cleanupErrorLogged := false } :=
  non_post_method_rejected "GET" (.parsed none none) ⟨[], [], 0⟩ false
    (by decide) (by decide)

/-- Claim C10: a chunk that contains a recognized filename marker in full
determines `newFilename` by itself, overwriting whatever an earlier chunk
captured; in particular a later chunk containing only `"Generated new
filename:"` overwrites a `newFilename` previously captured from an earlier
chunk's authoritative `"File renamed successfully to:"` marker. -/
theorem later_chunk_marker_overwrites_earlier_value :
    parseStdout ["File renamed successfully to: A.pdf\n", "Generated new filename: B.pdf\n"]
      = ⟨"", "B.pdf"⟩ ∧
    (∀ st chunk, jsIncludes chunk genMarker = true → jsIncludes chunk renameMarker = false →
      (processChunk st chunk).newFilename
        = jsTrim ((jsSplit ((jsSplit chunk genMarker).getD 1 "") renameMarker).headD "")) ∧
    (∀ st st' chunk, jsIncludes chunk genMarker = true →
      (processChunk st chunk).newFilename = (processChunk st' chunk).newFilename) :=
  ⟨by decide,
    fun st chunk hg hr => processChunk_gen_sets st chunk hg hr,
    fun st st' chunk hg => processChunk_newFilename_overwrite st st' chunk hg⟩

/-- Claim C10 witness: the overwrite applied to a chunk carrying only the
generated-filename marker, over two different earlier states. -/
theorem later_chunk_marker_overwrites_earlier_value_witness :
    (processChunk ⟨"", "A.pdf"⟩ "Generated new filename: B.pdf\n").newFilename
      = (processChunk ⟨"x", "other.pdf"⟩ "Generated new filename: B.pdf\n").newFilename :=
  later_chunk_marker_overwrites_earlier_value.2.2 ⟨"", "A.pdf"⟩ ⟨"x", "other.pdf"⟩
    "Generated new filename: B.pdf\n" (by decide)
